import Mathlib

/-!
Verification of the ggrs rollback-netcode repository fragment.

The only implementation file in the source tree is
`src/ggez/src/circular_buffer.rs`, embedded below as `CircularBuffer`.
The session engine (SyncTestSession, GameStateCell, InputQueue) is not in
the source tree — only its tests (`src/tests/test_synctest_session.rs`,
`src/tests/enum_input.rs`) are — so those components are modelled from the
specification, as marked in their doc comments.  The `GameStub`/`StateStub`
host simulation is embedded from `src/tests/enum_input.rs`.
-/

/-! ## CircularBuffer (embedded from src/ggez/src/circular_buffer.rs)

The Rust struct holds a `VecDeque<A>` (embedded as a `List A`, front = head)
and a fixed `cap : usize`. -/

structure CircularBuffer (A : Type) where
  queue : List A
  cap : Nat
deriving DecidableEq, Repr

namespace CircularBuffer

variable {A : Type}

/-- Embeds `VecDeque::pop_front`: removes and returns the front element, or
returns none leaving the deque unchanged when empty. -/
def deqPopFront (q : List A) : List A × Option A :=
  (q.tail, q.head?)

/-- Embeds `VecDeque::pop_back`: removes and returns the back element, or
returns none leaving the deque unchanged when empty. -/
def deqPopBack (q : List A) : List A × Option A :=
  (q.dropLast, q.getLast?)

/-- Embeds `CircularBuffer::new(size)`: empty deque, `cap = size`. -/
def new (A : Type) (size : Nat) : CircularBuffer A :=
  { queue := [], cap := size }

/-- Embeds `CircularBuffer::push_back`: when `len == cap` first pop the
front, then push the element at the back; returns the popped value. -/
def push_back (b : CircularBuffer A) (elem : A) : CircularBuffer A × Option A :=
  let r := if b.queue.length = b.cap then deqPopFront b.queue else (b.queue, none)
  ({ queue := r.1 ++ [elem], cap := b.cap }, r.2)

/-- Embeds `CircularBuffer::front`. -/
def front (b : CircularBuffer A) : Option A :=
  b.queue.head?

/-- Embeds `CircularBuffer::back`. -/
def back (b : CircularBuffer A) : Option A :=
  b.queue.getLast?

/-- Embeds `CircularBuffer::get`: index 0 is the front of the queue. -/
def get (b : CircularBuffer A) (index : Nat) : Option A :=
  b.queue[index]?

/-- Embeds `CircularBuffer::pop_front`. -/
def pop_front (b : CircularBuffer A) : CircularBuffer A × Option A :=
  let r := deqPopFront b.queue
  ({ queue := r.1, cap := b.cap }, r.2)

/-- Embeds `CircularBuffer::pop_back`. -/
def pop_back (b : CircularBuffer A) : CircularBuffer A × Option A :=
  let r := deqPopBack b.queue
  ({ queue := r.1, cap := b.cap }, r.2)

/-- Embeds `CircularBuffer::capacity`. -/
def capacity (b : CircularBuffer A) : Nat :=
  b.cap

/-- Embeds `CircularBuffer::is_empty`. -/
def is_empty (b : CircularBuffer A) : Bool :=
  b.queue.isEmpty

/-- Embeds `CircularBuffer::len`. -/
def len (b : CircularBuffer A) : Nat :=
  b.queue.length

/-- One mutating buffer operation, for stating properties over arbitrary
operation sequences. -/
inductive BufOp (A : Type) where
  | push (x : A)
  | popFront
  | popBack
deriving DecidableEq, Repr

/-- Apply one operation, discarding the returned value. -/
def applyOp (b : CircularBuffer A) : BufOp A → CircularBuffer A
  | .push x => (b.push_back x).1
  | .popFront => b.pop_front.1
  | .popBack => b.pop_back.1

/-- Apply a sequence of operations left to right. -/
def applyOps (b : CircularBuffer A) (ops : List (BufOp A)) : CircularBuffer A :=
  ops.foldl applyOp b

/-- Push a sequence of elements, collecting each push's returned value. -/
def pushAll (b : CircularBuffer A) : List A → CircularBuffer A × List (Option A)
  | [] => (b, [])
  | x :: xs =>
    ((pushAll (b.push_back x).1 xs).1, (b.push_back x).2 :: (pushAll (b.push_back x).1 xs).2)

end CircularBuffer

/-! ## Session-engine components

The session engine itself (GameStateCell, InputQueue, SyncTestSession) is
not in the source tree; only its tests are.  The definitions below are
modelled from the specification. -/

/-- Modelled from the spec: `InputStatus` is a "variant over {Confirmed,
Predicted, Disconnected}" tagging each input handed to the simulation. -/
inductive InputStatus where
  | Confirmed
  | Predicted
  | Disconnected
deriving DecidableEq, Repr, BEq

/-- Modelled from the spec: the error taxonomy of §7 (the `ggrs` error type
is not in the source tree).  Configuration errors (InvalidHandle,
UnsupportedPlayerType, InsufficientPlayers), protocol errors
(SessionNotRunning, StaleInput, QueueOverflow, LoadOnEmpty,
SessionAlreadyStarted) and the fatal RollbackTooFar. -/
inductive GgrsError where
  | InvalidHandle
  | UnsupportedPlayerType
  | InsufficientPlayers
  | SessionNotRunning
  | StaleInput
  | QueueOverflow
  | LoadOnEmpty
  | SessionAlreadyStarted
  | RollbackTooFar
deriving DecidableEq, Repr

/-- Modelled from the spec: a socket address (ip, port), only used to tag
Remote/Spectator player types; the engine never inspects it. -/
structure SocketAddr where
  ip : Nat × Nat × Nat × Nat
  port : Nat
deriving DecidableEq, Repr

/-- Modelled from the spec: `PlayerType` is a "variant over {Local,
Remote(address), Spectator(address)}". -/
inductive PlayerType where
  | Local
  | Remote (addr : SocketAddr)
  | Spectator (addr : SocketAddr)
deriving DecidableEq, Repr

/-- Modelled from the spec: `GameStateCell<S>` "holds
`Option<(Frame, S, Option<Checksum>)>`" (the cell type is not in the
source tree; frames are signed integers, checksums caller-supplied
128-bit values, modelled as `Nat`). -/
structure GameStateCell (S : Type) where
  data : Option (Int × S × Option Nat)
deriving DecidableEq, Repr

namespace GameStateCell

/-- Modelled from the spec: a freshly constructed cell holds nothing. -/
def new (S : Type) : GameStateCell S :=
  { data := none }

/-- Modelled from the spec: "`save(frame, state, checksum)` stores the
triple unconditionally, replacing any previous content". -/
def save (_c : GameStateCell S) (frame : Int) (state : S) (checksum : Option Nat) :
    GameStateCell S :=
  { data := some (frame, state, checksum) }

/-- Modelled from the spec: "`load()` returns the stored `(frame, state)`
pair; fails with a LoadOnEmpty error when nothing has been saved into this
cell yet". -/
def load (c : GameStateCell S) : Except GgrsError (Int × S) :=
  match c.data with
  | none => .error .LoadOnEmpty
  | some (f, s, _) => .ok (f, s)

end GameStateCell

/-- Modelled from the spec: one entry of a per-player input queue,
a "(Frame, InputBytes, InputStatus)" triple (`I` is the opaque input
type). -/
structure QEntry (I : Type) where
  frame : Int
  input : I
  status : InputStatus
deriving DecidableEq, Repr

/-- Modelled from the spec: the per-player `InputQueue` — the entry
sequence (front = oldest, back = newest; the bounded-ring eviction of old
entries is not exercised by any claim and is not modelled) together with
the per-player `frame_delay`. -/
structure InputQueue (I : Type) where
  entries : List (QEntry I)
  frame_delay : Nat
deriving DecidableEq, Repr

namespace InputQueue

variable {I : Type}

/-- Modelled from the spec: an empty queue with no frame delay. -/
def new (I : Type) : InputQueue I :=
  { entries := [], frame_delay := 0 }

/-- Confirmed entries of the queue, in insertion order. -/
def confirmedEntries (q : InputQueue I) : List (QEntry I) :=
  q.entries.filter (fun e => e.status == InputStatus.Confirmed)

/-- Modelled from the spec: the confirmed entry stored for exactly the
requested frame, if any. -/
def findConfirmed (q : InputQueue I) (frame : Int) : Option (QEntry I) :=
  (q.confirmedEntries.filter (fun e => e.frame == frame)).head?

/-- Modelled from the spec: the most recently confirmed input visible at
`frame` — the last confirmed entry whose frame does not exceed the
requested one (inputs delayed past the requested frame are "not made
visible for use until frame + frame_delay"). -/
def lastConfirmedBefore (q : InputQueue I) (frame : Int) : Option (QEntry I) :=
  (q.confirmedEntries.filter (fun e => decide (e.frame ≤ frame))).getLast?

/-- Modelled from the spec: `input_for_frame(frame)` — "if confirmed input
exists for `frame`, return it.  Otherwise synthesize a prediction using the
repeat-last-confirmed policy (copy the most recently confirmed input, or a
caller-supplied zero/default value if none exists yet) and tag it
Predicted." -/
def input_for_frame (q : InputQueue I) (frame : Int) (default : I) : I × InputStatus :=
  match q.findConfirmed frame with
  | some e => (e.input, InputStatus.Confirmed)
  | none =>
    match q.lastConfirmedBefore frame with
    | some e => (e.input, InputStatus.Predicted)
    | none => (default, InputStatus.Predicted)

/-- Modelled from the spec: appending a local input, marked Confirmed,
delayed by the queue's frame delay. -/
def addConfirmed (q : InputQueue I) (frame : Int) (input : I) : InputQueue I :=
  { q with entries := q.entries ++ [{ frame := frame + q.frame_delay, input := input,
                                      status := InputStatus.Confirmed }] }

end InputQueue

/-- Modelled from the spec: session states "Initializing (players being
added) → Running (accepting inputs / advancing)". -/
inductive SessionState where
  | Initializing
  | Running
deriving DecidableEq, Repr

/-- Modelled from the spec: the frame-request protocol — the `GGRSRequest`
variants "SaveState{frame, cell}", "LoadState{cell}",
"AdvanceFrame{inputs}" (the cell is identified here by the frame it is
saved at; the host keeps the save store, see `handleRequest`). -/
inductive GGRSRequest (I : Type) where
  | SaveGameState (frame : Int)
  | LoadGameState (frame : Int)
  | AdvanceFrame (inputs : List (I × InputStatus))
deriving DecidableEq, Repr

/-- Modelled from the spec: the local/offline `SyncTestSession` — a fixed
number of per-player input queues, the session state machine, the set of
added local players, the current frame and the per-session configuration
(`num_players`, `input_size`, `check_distance`).  In this local-only
variant every stored input is Confirmed at insertion and `confirm` is
never invoked, so `first_incorrect_frame` is always none and
`advance_frame` always takes the direct (no-rollback) path of §4.4 step 2;
the checksum comparison of §4.4 step "Checksum comparison" only raises the
observational DesyncDetected event, which is "not an error", so it does
not affect the request batch or the frame counter. -/
structure SyncTestSession (I : Type) where
  num_players : Nat
  input_size : Nat
  check_distance : Nat
  state : SessionState
  local_players : List Nat
  queues : List (InputQueue I)
  current_frame : Int
deriving DecidableEq, Repr

namespace SyncTestSession

variable {I : Type}

/-- Modelled from the spec: the construction surface
`start_session(num_players, input_size, check_distance) -> Result` — the
spec names no failure condition for the local test variant, and the tests
observe success, so construction always succeeds. -/
def start_synctest_session (I : Type) (num_players input_size check_distance : Nat) :
    Except GgrsError (SyncTestSession I) :=
  .ok { num_players := num_players
        input_size := input_size
        check_distance := check_distance
        state := SessionState.Initializing
        local_players := []
        queues := List.replicate num_players (InputQueue.new I)
        current_frame := 0 }

/-- Modelled from the spec: `add_player(type, handle)` is "valid only in
Initializing; fails with InvalidHandle if handle is out of the configured
player range or already used, UnsupportedPlayerType if the session variant
cannot host that player type (the local/offline test variant rejects
Remote/Spectator)". -/
def add_player (s : SyncTestSession I) (ptype : PlayerType) (handle : Nat) :
    Except GgrsError (SyncTestSession I) :=
  match ptype with
  | PlayerType.Local =>
    if s.state ≠ SessionState.Initializing then .error .SessionAlreadyStarted
    else if s.num_players ≤ handle ∨ handle ∈ s.local_players then .error .InvalidHandle
    else .ok { s with local_players := s.local_players ++ [handle] }
  | _ => .error .UnsupportedPlayerType

/-- Modelled from the spec: `set_frame_delay` "may only be called before
the session starts (SessionAlreadyStarted error otherwise)"; an
out-of-range handle is rejected like every other handle use. -/
def set_frame_delay (s : SyncTestSession I) (delay : Nat) (handle : Nat) :
    Except GgrsError (SyncTestSession I) :=
  if s.state ≠ SessionState.Initializing then .error .SessionAlreadyStarted
  else if s.num_players ≤ handle then .error .InvalidHandle
  else
    let q := InputQueue.mk (s.queues.getD handle (InputQueue.new I)).entries delay
    .ok { s with queues := s.queues.set handle q }

/-- Modelled from the spec: `start_session()`: Initializing → Running.
The local test variant's fill policy is observed from the tests: starting
with any subset of players added succeeds (a session with one of two
players added starts fine), so no InsufficientPlayers arises here. -/
def start_session (s : SyncTestSession I) : Except GgrsError (SyncTestSession I) :=
  .ok { s with state := SessionState.Running }

/-- Modelled from the spec: `add_local_input(handle, bytes)` is "valid only
in Running; fails with SessionNotRunning (Initializing) or InvalidHandle;
otherwise appended to that player's input queue at
current_frame + frame_delay". -/
def add_local_input (s : SyncTestSession I) (handle : Nat) (input : I) :
    Except GgrsError (SyncTestSession I) :=
  if s.state ≠ SessionState.Running then .error .SessionNotRunning
  else if s.num_players ≤ handle then .error .InvalidHandle
  else
    let q := (s.queues.getD handle (InputQueue.new I)).addConfirmed s.current_frame input
    .ok { s with queues := s.queues.set handle q }

/-- Modelled from the spec: `advance_frame` in Running, direct path of
§4.4 step 2 (no misprediction ever exists in the local-only variant): for
every player compute `input_for_frame(current_frame)`, emit
`SaveState(current_frame)` then `AdvanceFrame(inputs)` (inputs ordered by
player handle ascending), and increment `current_frame`. -/
def advance_frame (s : SyncTestSession I) (default : I) :
    Except GgrsError (SyncTestSession I × List (GGRSRequest I)) :=
  if s.state ≠ SessionState.Running then .error .SessionNotRunning
  else
    .ok ({ s with current_frame := s.current_frame + 1 },
      [GGRSRequest.SaveGameState s.current_frame,
       GGRSRequest.AdvanceFrame ((List.range s.num_players).map
         (fun p => (s.queues.getD p (InputQueue.new I)).input_for_frame s.current_frame default))])

end SyncTestSession

/-! ## Host simulation stub (embedded from src/tests/enum_input.rs) -/

/-- Embeds `StateStub` from src/tests/enum_input.rs: `frame: i32`,
`state: i32`. -/
structure StateStub where
  frame : Int
  state : Int
deriving DecidableEq, Repr

/-- Embeds `StateStub::advance_frame`: reads `inputs[0]` and `inputs[1]`
(an out-of-bounds index is a Rust panic, embedded as `none`); equal input
pairs add 2 to the state, unequal subtract 1; the frame increments. -/
def StateStub.advance_frame {I : Type} [DecidableEq I] (gs : StateStub)
    (inputs : List (I × InputStatus)) : Option StateStub :=
  match inputs[0]?, inputs[1]? with
  | some p0, some p1 =>
    some { frame := gs.frame + 1,
           state := if p0 = p1 then gs.state + 2 else gs.state - 1 }
  | _, _ => none

/-- Embeds `GameStub` from src/tests/enum_input.rs: wraps the game state. -/
structure GameStub where
  gs : StateStub
deriving DecidableEq, Repr

/-- Embeds `GameStub::new`: frame 0, state 0. -/
def GameStub.new : GameStub :=
  { gs := { frame := 0, state := 0 } }

/-- The host's store of saved states, one per saved frame (the modelled
counterpart of the `GameStateCell`s handed out by the session's history
ring; the checksum the Rust stub hashes is not needed by any claim and is
stored as none). -/
abbrev SaveStore := List (Int × StateStub)

/-- Embeds `GameStub::handle_requests` dispatch for one request:
`SaveGameState` asserts `self.gs.frame == frame` (a failed Rust assert is
embedded as `none`) and saves the current state; `LoadGameState` loads the
saved state for the cell (unwrap of a missing save is `none`);
`AdvanceFrame` steps the state stub. -/
def handleRequest {I : Type} [DecidableEq I] (g : GameStub × SaveStore) :
    GGRSRequest I → Option (GameStub × SaveStore)
  | .SaveGameState f =>
    if g.1.gs.frame = f then some (g.1, (f, g.1.gs) :: g.2) else none
  | .LoadGameState f =>
    match g.2.find? (fun p => p.1 == f) with
    | some p => some ({ gs := p.2 }, g.2)
    | none => none
  | .AdvanceFrame inputs =>
    (g.1.gs.advance_frame inputs).map (fun gs => ({ gs := gs }, g.2))

/-- Embeds `GameStub::handle_requests`: fold `handleRequest` over the
ordered batch. -/
def handleRequests {I : Type} [DecidableEq I] (g : GameStub × SaveStore)
    (reqs : List (GGRSRequest I)) : Option (GameStub × SaveStore) :=
  reqs.foldlM handleRequest g

/-! ## End-to-end test scenarios (from src/tests/test_synctest_session.rs) -/

/-- The 4-byte little-endian serialization of a 32-bit integer (the tests
serialize their `u32` inputs with bincode, which is 4 bytes LE). -/
def serializeU32 (n : Nat) : List Nat :=
  [n % 256, n / 256 % 256, n / 65536 % 256, n / 16777216 % 256]

/-- The zero/default input: the serialization of 0. -/
def zeroInput : List Nat :=
  serializeU32 0

/-- The combined state of one run of the end-to-end test: the session, the
host stub and the host's store of saved states. -/
abbrev TestState := SyncTestSession (List Nat) × GameStub × SaveStore

/-- One loop iteration of the end-to-end test (loop body of
`test_advance_frame`): add input `i` for the given handle, advance the
session, let the host handle the request batch; `none` when any step
fails. -/
def stepTest (handle : Nat) (p : TestState) (i : Nat) : Option TestState :=
  match p.1.add_local_input handle (serializeU32 i) with
  | .error _ => none
  | .ok s1 =>
    match s1.advance_frame zeroInput with
    | .error _ => none
    | .ok (s2, reqs) =>
      match handleRequests (p.2.1, p.2.2) reqs with
      | none => none
      | some g => some (s2, g.1, g.2)

/-- Run `k` consecutive loop iterations starting at loop index `i`. -/
def runSteps (handle : Nat) : Nat → Nat → TestState → Option TestState
  | _, 0, p => some p
  | i, k + 1, p =>
    match stepTest handle p i with
    | none => none
    | some q => runSteps handle (i + 1) k q

/-- The session of `test_advance_frame`: 2 players, 4-byte input size,
`check_distance = 7`, one local player at handle 1, then started. -/
def buildTest : Except GgrsError (SyncTestSession (List Nat)) :=
  (SyncTestSession.start_synctest_session (List Nat) 2 4 7).bind
    (fun s => (s.add_player PlayerType.Local 1).bind SyncTestSession.start_session)

/-- The session of `test_advance_frames_with_delayed_input`: as
`buildTest`, with `set_frame_delay(2, 1)` called before start. -/
def buildTestDelayed : Except GgrsError (SyncTestSession (List Nat)) :=
  (SyncTestSession.start_synctest_session (List Nat) 2 4 7).bind
    (fun s => ((s.add_player PlayerType.Local 1).bind
      (fun s1 => s1.set_frame_delay 2 1)).bind SyncTestSession.start_session)

/-- The state after `n` loop iterations of `test_advance_frame`, when
every step succeeded. -/
def runTest (n : Nat) : Option TestState :=
  match buildTest with
  | .ok s => runSteps 1 0 n (s, GameStub.new, [])
  | .error _ => none

/-- The state after `n` loop iterations of
`test_advance_frames_with_delayed_input`, when every step succeeded. -/
def runTestDelayed (n : Nat) : Option TestState :=
  match buildTestDelayed with
  | .ok s => runSteps 1 0 n (s, GameStub.new, [])
  | .error _ => none

/-- The host-visible frame counter (`stub.gs.frame`) of a run result. -/
def frameAfter (r : Option TestState) : Option Int :=
  r.map (fun p => p.2.1.gs.frame)

/-! ## Lemmas about the circular buffer -/

namespace CircularBuffer

variable {A : Type}

theorem applyOp_cap (b : CircularBuffer A) (op : BufOp A) :
    (b.applyOp op).cap = b.cap := by
  cases op <;> rfl

theorem applyOps_cap (ops : List (BufOp A)) (b : CircularBuffer A) :
    (b.applyOps ops).cap = b.cap := by
  induction ops generalizing b with
  | nil => rfl
  | cons op ops ih =>
    calc (b.applyOps (op :: ops)).cap
        = ((b.applyOp op).applyOps ops).cap := rfl
      _ = (b.applyOp op).cap := ih _
      _ = b.cap := applyOp_cap b op

theorem len_applyOp_le (b : CircularBuffer A) (op : BufOp A)
    (hc : 1 ≤ b.cap) (hl : b.len ≤ b.cap) : (b.applyOp op).len ≤ b.cap := by
  cases op with
  | push x =>
    have hl2 : b.queue.length ≤ b.cap := hl
    by_cases h : b.queue.length = b.cap
    · have hthis : (b.applyOp (.push x)).len = b.queue.tail.length + 1 := by
        simp [applyOp, push_back, deqPopFront, h, len]
      rw [hthis, List.length_tail]
      omega
    · have hthis : (b.applyOp (.push x)).len = b.queue.length + 1 := by
        simp [applyOp, push_back, h, len]
      rw [hthis]
      omega
  | popFront =>
    simp only [len] at hl
    simp only [applyOp, pop_front, deqPopFront, len, List.length_tail]
    omega
  | popBack =>
    simp only [len] at hl
    simp only [applyOp, pop_back, deqPopBack, len, List.length_dropLast]
    omega

theorem len_applyOps_le (ops : List (BufOp A)) (b : CircularBuffer A)
    (hc : 1 ≤ b.cap) (hl : b.len ≤ b.cap) : (b.applyOps ops).len ≤ b.cap := by
  induction ops generalizing b with
  | nil => exact hl
  | cons op ops ih =>
    have h1 : ((b.applyOp op) : CircularBuffer A).cap = b.cap := applyOp_cap b op
    have h2 : (b.applyOp op).len ≤ (b.applyOp op).cap := by
      rw [h1]; exact len_applyOp_le b op hc hl
    calc (b.applyOps (op :: ops)).len
        = ((b.applyOp op).applyOps ops).len := rfl
      _ ≤ (b.applyOp op).cap := ih _ (h1 ▸ hc) h2
      _ = b.cap := h1

theorem pushAll_mk (xs : List A) : ∀ (q : List A) (C : Nat), 1 ≤ C → q.length ≤ C →
    (pushAll ⟨q, C⟩ xs).1 = ⟨(q ++ xs).drop (q.length + xs.length - C), C⟩ ∧
    (pushAll ⟨q, C⟩ xs).2 =
      List.replicate (min xs.length (C - q.length)) none ++
        ((q ++ xs).take (q.length + xs.length - C)).map some := by
  induction xs with
  | nil =>
    intro q C _hC hq
    have h0 : q.length - C = 0 := by omega
    refine ⟨?_, ?_⟩ <;> simp [pushAll, h0]
  | cons x xs ih =>
    intro q C hC hq
    by_cases h : q.length = C
    · cases q with
      | nil => simp only [List.length_nil] at h; omega
      | cons hd tl =>
        have hlen : tl.length + 1 = C := by simpa using h
        have hstep : pushAll ⟨hd :: tl, C⟩ (x :: xs) =
            ((pushAll ⟨tl ++ [x], C⟩ xs).1, some hd :: (pushAll ⟨tl ++ [x], C⟩ xs).2) := by
          simp [pushAll, push_back, deqPopFront, h]
        have hq1 : (tl ++ [x]).length ≤ C := by
          simp only [List.length_append, List.length_cons, List.length_nil]; omega
        obtain ⟨ih1, ih2⟩ := ih (tl ++ [x]) C hC hq1
        have r1 : min (x :: xs).length (C - (hd :: tl : List A).length) = 0 := by
          simp only [List.length_cons]; omega
        have r2 : (hd :: tl : List A).length + (x :: xs).length - C = xs.length + 1 := by
          simp only [List.length_cons]; omega
        have r3 : min xs.length (C - (tl ++ [x]).length) = 0 := by
          simp only [List.length_append, List.length_cons, List.length_nil]; omega
        have r4 : (tl ++ [x]).length + xs.length - C = xs.length := by
          simp only [List.length_append, List.length_cons, List.length_nil]; omega
        refine ⟨?_, ?_⟩
        · rw [hstep]
          rw [ih1, r4, r2]
          simp [List.append_assoc]
        · rw [hstep]
          rw [ih2, r1, r2, r3, r4]
          simp [List.append_assoc]
    · have hstep : pushAll ⟨q, C⟩ (x :: xs) =
          ((pushAll ⟨q ++ [x], C⟩ xs).1, none :: (pushAll ⟨q ++ [x], C⟩ xs).2) := by
        simp [pushAll, push_back, h]
      have hq1 : (q ++ [x]).length ≤ C := by
        simp only [List.length_append, List.length_cons, List.length_nil]; omega
      obtain ⟨ih1, ih2⟩ := ih (q ++ [x]) C hC hq1
      have e2 : (q ++ [x]).length + xs.length - C = q.length + (x :: xs).length - C := by
        simp only [List.length_append, List.length_cons, List.length_nil]; omega
      have em : min (x :: xs).length (C - q.length) =
          min xs.length (C - (q ++ [x]).length) + 1 := by
        simp only [List.length_append, List.length_cons, List.length_nil]; omega
      refine ⟨?_, ?_⟩
      · rw [hstep]
        rw [ih1, e2]
        simp [List.append_assoc]
      · rw [hstep]
        rw [ih2, em, List.replicate_succ, e2]
        simp [List.append_assoc]

theorem push_back_cap_zero (b : CircularBuffer A) (hb : b.cap = 0) (x : A) :
    (b.push_back x).1.queue.length = b.queue.length + 1 ∧
    (b.push_back x).2 = none ∧ (b.push_back x).1.cap = 0 := by
  by_cases h : b.queue.length = b.cap
  · have hq : b.queue = [] := List.length_eq_zero.mp (by omega)
    refine ⟨?_, ?_, ?_⟩ <;> simp [push_back, deqPopFront, h, hq, hb]
  · have hif : (if b.queue.length = b.cap then deqPopFront b.queue else (b.queue, none)) =
        (b.queue, none) := if_neg h
    refine ⟨?_, ?_, ?_⟩ <;> simp [push_back, hif, hb]

theorem pushAll_cap_zero (xs : List A) : ∀ (b : CircularBuffer A), b.cap = 0 →
    (b.pushAll xs).1.queue.length = b.queue.length + xs.length ∧
    (b.pushAll xs).2 = List.replicate xs.length none := by
  induction xs with
  | nil => intro b _; exact ⟨rfl, rfl⟩
  | cons x xs ih =>
    intro b hb
    obtain ⟨h1, h2, h3⟩ := push_back_cap_zero b hb x
    obtain ⟨ih1, ih2⟩ := ih (b.push_back x).1 h3
    refine ⟨?_, ?_⟩
    · show ((b.push_back x).1.pushAll xs).1.queue.length = _
      rw [ih1, h1]
      simp only [List.length_cons]
      omega
    · show (b.push_back x).2 :: ((b.push_back x).1.pushAll xs).2 = _
      rw [ih2, h2, List.length_cons, List.replicate_succ]

end CircularBuffer

/-! ## The claims -/

/-- C1 counterexample: at capacity 0 with one push (N = 1 > C = 0) the
claim as stated fails — the buffer does not hold the last 0 elements (it
holds the pushed one), and the number of pushes that returned an evicted
element is not N − C = 1 (the push returned none). -/
theorem claim_C1_counterexample :
    ¬ (((CircularBuffer.new Nat 0).pushAll [5]).1.queue = [] ∧
       ((((CircularBuffer.new Nat 0).pushAll [5]).2.filter Option.isSome).length = 1)) := by
  decide

/-- C1 (amended to capacities C ≥ 1): for every capacity C ≥ 1 and every
sequence of N > C pushes on a buffer built by new(C), afterwards the
buffer holds exactly the last C pushed elements in push order, and the
push results are: none for the first C pushes, then the evicted oldest
element (FIFO — the pushed prefix in order) for the remaining N − C. -/
theorem claim_C1_ring_bound (C : Nat) (hC : 1 ≤ C) (xs : List Nat) (hN : C < xs.length) :
    ((CircularBuffer.new Nat C).pushAll xs).1.queue = xs.drop (xs.length - C) ∧
    ((CircularBuffer.new Nat C).pushAll xs).2 =
      List.replicate C none ++ (xs.take (xs.length - C)).map some := by
  obtain ⟨h1, h2⟩ := CircularBuffer.pushAll_mk xs [] C hC (by simp)
  have hmin : min xs.length (C - ([] : List Nat).length) = C := by
    simp only [List.length_nil]; omega
  constructor
  · simp only [CircularBuffer.new]
    rw [h1]
    simp
  · simp only [CircularBuffer.new]
    rw [h2, hmin]
    simp

/-- C1 witness: capacity 2, pushes [1,2,3]. -/
theorem claim_C1_ring_bound_witness :
    1 ≤ 2 ∧ 2 < ([1, 2, 3] : List Nat).length ∧
    (((CircularBuffer.new Nat 2).pushAll [1, 2, 3]).1.queue =
        ([1, 2, 3] : List Nat).drop (([1, 2, 3] : List Nat).length - 2) ∧
      ((CircularBuffer.new Nat 2).pushAll [1, 2, 3]).2 =
        List.replicate 2 none ++ (([1, 2, 3] : List Nat).take (([1, 2, 3] : List Nat).length - 2)).map some) :=
  ⟨by decide, by decide, claim_C1_ring_bound 2 (by decide) [1, 2, 3] (by decide)⟩

/-- C2 counterexample: at capacity 0, a single push leaves len() = 1 > 0,
so the invariant len() ≤ C does not hold for C = 0. -/
theorem claim_C2_counterexample :
    ¬ ((CircularBuffer.new Nat 0).applyOps [CircularBuffer.BufOp.push 7]).len ≤ 0 := by
  decide

/-- C2 (amended to capacities C ≥ 1): starting from new(C) with C ≥ 1 and
applying any sequence of push_back, pop_front and pop_back operations, the
invariant len() ≤ C holds after every operation (every reachable state is
`applyOps` of some prefix, all of which this covers). -/
theorem claim_C2_len_le_cap (C : Nat) (hC : 1 ≤ C) (ops : List (CircularBuffer.BufOp Nat)) :
    ((CircularBuffer.new Nat C).applyOps ops).len ≤ C :=
  CircularBuffer.len_applyOps_le ops (CircularBuffer.new Nat C) hC (by simp [CircularBuffer.new, CircularBuffer.len])

/-- C2 witness: capacity 1 with two pushes and a pop. -/
theorem claim_C2_len_le_cap_witness :
    1 ≤ 1 ∧ ((CircularBuffer.new Nat 1).applyOps
      [CircularBuffer.BufOp.push 1, CircularBuffer.BufOp.push 2,
       CircularBuffer.BufOp.popFront]).len ≤ 1 :=
  ⟨by decide, claim_C2_len_le_cap 1 (by decide)
    [CircularBuffer.BufOp.push 1, CircularBuffer.BufOp.push 2, CircularBuffer.BufOp.popFront]⟩

/-- C7: front(), back() and get(i) return none exactly when the requested
position is out of range (empty buffer for front/back, i ≥ len() for get);
otherwise front() is the oldest element (offset 0), back() the newest
(offset len()−1), and get(i) the element at offset i from the front.  In
this embedding the three lookups are plain functions of the buffer
returning no successor state, so they cannot mutate it. -/
theorem claim_C7_lookups (b : CircularBuffer Nat) :
    (b.front = none ↔ b.len = 0) ∧
    (b.back = none ↔ b.len = 0) ∧
    (∀ i, b.get i = none ↔ b.len ≤ i) ∧
    b.front = b.get 0 ∧
    (∀ i, b.get i = (b.queue.drop i).head?) ∧
    b.back = b.get (b.len - 1) := by
  refine ⟨?_, ?_, ?_, ?_, ?_, ?_⟩
  · rw [CircularBuffer.front, CircularBuffer.len, List.head?_eq_none_iff,
      List.length_eq_zero]
  · rw [CircularBuffer.back, CircularBuffer.len, List.getLast?_eq_none_iff,
      List.length_eq_zero]
  · intro i
    rw [CircularBuffer.get, CircularBuffer.len, List.getElem?_eq_none_iff]
  · rw [CircularBuffer.front, CircularBuffer.get, List.head?_eq_getElem?]
  · intro i
    rw [CircularBuffer.get, List.head?_drop]
  · rw [CircularBuffer.back, CircularBuffer.get, CircularBuffer.len,
      List.getLast?_eq_getElem?]

/-- C8: the capacity reported by capacity() equals the C given to new(C)
after any sequence of push_back, pop_front and pop_back operations — it is
fixed at construction. -/
theorem claim_C8_capacity_fixed (C : Nat) (ops : List (CircularBuffer.BufOp Nat)) :
    ((CircularBuffer.new Nat C).applyOps ops).capacity = C :=
  CircularBuffer.applyOps_cap ops (CircularBuffer.new Nat C)

/-- C9: on a buffer constructed with new(0) — and on any cap-0 buffer state
reachable from it — every push_back returns none and increases len() by
one, so after N pushes len() = N; no element is ever evicted. -/
theorem claim_C9_zero_capacity :
    (∀ (b : CircularBuffer Nat), b.cap = 0 → ∀ x : Nat,
      (b.push_back x).2 = none ∧ (b.push_back x).1.len = b.len + 1) ∧
    (∀ xs : List Nat,
      ((CircularBuffer.new Nat 0).pushAll xs).1.len = xs.length ∧
      ((CircularBuffer.new Nat 0).pushAll xs).2 = List.replicate xs.length none) := by
  constructor
  · intro b hb x
    obtain ⟨h1, h2, _⟩ := CircularBuffer.push_back_cap_zero b hb x
    exact ⟨h2, h1⟩
  · intro xs
    obtain ⟨h1, h2⟩ := CircularBuffer.pushAll_cap_zero xs (CircularBuffer.new Nat 0) rfl
    refine ⟨?_, h2⟩
    rw [CircularBuffer.len, h1]
    simp [CircularBuffer.new]

/-- C9 witness: a fresh cap-0 buffer, push 5; and the two-push sequence. -/
theorem claim_C9_zero_capacity_witness :
    (((CircularBuffer.new Nat 0).push_back 5).2 = none ∧
      ((CircularBuffer.new Nat 0).push_back 5).1.len = (CircularBuffer.new Nat 0).len + 1) ∧
    (((CircularBuffer.new Nat 0).pushAll [1, 2]).1.len = ([1, 2] : List Nat).length ∧
      ((CircularBuffer.new Nat 0).pushAll [1, 2]).2 = List.replicate ([1, 2] : List Nat).length none) :=
  ⟨claim_C9_zero_capacity.1 (CircularBuffer.new Nat 0) rfl 5,
   claim_C9_zero_capacity.2 [1, 2]⟩

/-- C10: on a non-full buffer (len() < capacity()), push_back(x) evicts
nothing, and following it with pop_back() returns x and restores the
buffer exactly to its pre-push state. -/
theorem claim_C10_push_pop_roundtrip (b : CircularBuffer Nat) (x : Nat)
    (h : b.len < b.capacity) :
    (b.push_back x).2 = none ∧
    (b.push_back x).1.pop_back.2 = some x ∧
    (b.push_back x).1.pop_back.1 = b := by
  have hne : ¬ b.queue.length = b.cap := by
    simp only [CircularBuffer.len, CircularBuffer.capacity] at h; omega
  refine ⟨?_, ?_, ?_⟩
  · simp [CircularBuffer.push_back, hne]
  · simp [CircularBuffer.push_back, CircularBuffer.pop_back, CircularBuffer.deqPopBack, hne]
  · simp [CircularBuffer.push_back, CircularBuffer.pop_back, CircularBuffer.deqPopBack, hne]

/-- C10 witness: an empty capacity-2 buffer with x = 9. -/
theorem claim_C10_push_pop_roundtrip_witness :
    (CircularBuffer.new Nat 2).len < (CircularBuffer.new Nat 2).capacity ∧
    (((CircularBuffer.new Nat 2).push_back 9).2 = none ∧
      ((CircularBuffer.new Nat 2).push_back 9).1.pop_back.2 = some 9 ∧
      ((CircularBuffer.new Nat 2).push_back 9).1.pop_back.1 = CircularBuffer.new Nat 2) :=
  ⟨by decide, claim_C10_push_pop_roundtrip (CircularBuffer.new Nat 2) 9 (by decide)⟩

/-- One successful loop iteration of the end-to-end scenario: in the
Running state with 2 players, adding the local input and advancing always
succeeds, and the host-visible frame counter goes from i to i + 1. -/
theorem stepTest_ok (s : SyncTestSession (List Nat)) (g : GameStub) (st : SaveStore) (i : Nat)
    (h1 : s.state = SessionState.Running) (hnp : s.num_players = 2)
    (h3 : s.current_frame = (i : Int)) (h4 : g.gs.frame = (i : Int)) :
    ∃ s2 g2 st2, stepTest 1 (s, g, st) i = some (s2, g2, st2) ∧
      s2.state = SessionState.Running ∧ s2.num_players = 2 ∧
      s2.current_frame = (i : Int) + 1 ∧ g2.gs.frame = (i : Int) + 1 := by
  simp [stepTest, SyncTestSession.add_local_input, SyncTestSession.advance_frame,
    handleRequests, handleRequest, StateStub.advance_frame, h1, hnp, h3, h4,
    List.foldlM_cons, List.foldlM_nil, List.range_succ]
  exact ⟨_, _, ⟨rfl, rfl⟩, rfl, rfl, rfl, rfl⟩

/-- Iterating the loop k times from index i preserves the invariant and
advances both the session frame and the host frame by k. -/
theorem runSteps_ok : ∀ (k i : Nat) (s : SyncTestSession (List Nat)) (g : GameStub) (st : SaveStore),
    s.state = SessionState.Running → s.num_players = 2 →
    s.current_frame = (i : Int) → g.gs.frame = (i : Int) →
    ∃ p : TestState, runSteps 1 i k (s, g, st) = some p ∧
      p.1.state = SessionState.Running ∧ p.1.num_players = 2 ∧
      p.1.current_frame = ((i + k : Nat) : Int) ∧ p.2.1.gs.frame = ((i + k : Nat) : Int) := by
  intro k
  induction k with
  | zero =>
    intro i s g st h1 h2 h3 h4
    exact ⟨(s, g, st), rfl, h1, h2, by simpa using h3, by simpa using h4⟩
  | succ k ih =>
    intro i s g st h1 h2 h3 h4
    obtain ⟨s2, g2, st2, hstep, hs1, hs2, hs3, hs4⟩ := stepTest_ok s g st i h1 h2 h3 h4
    have hc3 : s2.current_frame = ((i + 1 : Nat) : Int) := by rw [hs3]; push_cast; ring
    have hc4 : g2.gs.frame = ((i + 1 : Nat) : Int) := by rw [hs4]; push_cast; ring
    obtain ⟨p, hrun, hp1, hp2, hp3, hp4⟩ := ih (i + 1) s2 g2 st2 hs1 hs2 hc3 hc4
    refine ⟨p, ?_, hp1, hp2, ?_, ?_⟩
    · show (match stepTest 1 (s, g, st) i with
        | none => none
        | some q => runSteps 1 (i + 1) k q) = some p
      rw [hstep]
      exact hrun
    · rw [hp3]; omega
    · rw [hp4]; omega

/-- After n loop iterations of the plain scenario the host frame counter
reads n (and every iteration succeeded). -/
theorem runTest_frame (n : Nat) :
    ∃ p : TestState, runTest n = some p ∧ p.2.1.gs.frame = (n : Int) := by
  obtain ⟨s0, hs0⟩ : ∃ s0, buildTest = Except.ok s0 := ⟨_, rfl⟩
  have hst : s0.state = SessionState.Running := by cases hs0; rfl
  have hnp : s0.num_players = 2 := by cases hs0; rfl
  have hcf : s0.current_frame = ((0 : Nat) : Int) := by cases hs0; rfl
  obtain ⟨p, hrun, _, _, _, hp4⟩ := runSteps_ok n 0 s0 GameStub.new [] hst hnp hcf rfl
  refine ⟨p, ?_, by simpa using hp4⟩
  rw [show runTest n = runSteps 1 0 n (s0, GameStub.new, []) from by simp [runTest, hs0]]
  exact hrun

/-- After n loop iterations of the delayed-input scenario the host frame
counter reads n (and every iteration succeeded). -/
theorem runTestDelayed_frame (n : Nat) :
    ∃ p : TestState, runTestDelayed n = some p ∧ p.2.1.gs.frame = (n : Int) := by
  obtain ⟨s0, hs0⟩ : ∃ s0, buildTestDelayed = Except.ok s0 := ⟨_, rfl⟩
  have hst : s0.state = SessionState.Running := by cases hs0; rfl
  have hnp : s0.num_players = 2 := by cases hs0; rfl
  have hcf : s0.current_frame = ((0 : Nat) : Int) := by cases hs0; rfl
  obtain ⟨p, hrun, _, _, _, hp4⟩ := runSteps_ok n 0 s0 GameStub.new [] hst hnp hcf rfl
  refine ⟨p, ?_, by simpa using hp4⟩
  rw [show runTestDelayed n = runSteps 1 0 n (s0, GameStub.new, []) from by simp [runTestDelayed, hs0]]
  exact hrun

/-- C3: on the 2-player local test session with check_distance 7, one
local player at handle 1 and the session started, each of the 200 loop
iterations (add input i as a serialized 4-byte integer, then advance)
succeeds and leaves the host-visible frame counter equal to i + 1; with
set_frame_delay(2, 1) before start the same holds, and both runs end with
final frame count 200. -/
theorem claim_C3_advance_200 :
    (∀ i : Nat, i < 200 → frameAfter (runTest (i + 1)) = some ((i : Int) + 1)) ∧
    (∀ i : Nat, i < 200 → frameAfter (runTestDelayed (i + 1)) = some ((i : Int) + 1)) ∧
    frameAfter (runTest 200) = some 200 ∧
    frameAfter (runTestDelayed 200) = some 200 := by
  refine ⟨?_, ?_, ?_, ?_⟩
  · intro i _
    obtain ⟨p, hrun, hf⟩ := runTest_frame (i + 1)
    rw [frameAfter, hrun]
    simp [hf]
  · intro i _
    obtain ⟨p, hrun, hf⟩ := runTestDelayed_frame (i + 1)
    rw [frameAfter, hrun]
    simp [hf]
  · obtain ⟨p, hrun, hf⟩ := runTest_frame 200
    rw [frameAfter, hrun]
    simp [hf]
  · obtain ⟨p, hrun, hf⟩ := runTestDelayed_frame 200
    rw [frameAfter, hrun]
    simp [hf]

/-- C3 witness: iteration i = 2 of both scenarios. -/
theorem claim_C3_advance_200_witness :
    (2 < 200 ∧ frameAfter (runTest (2 + 1)) = some ((2 : Int) + 1)) ∧
    (2 < 200 ∧ frameAfter (runTestDelayed (2 + 1)) = some ((2 : Int) + 1)) :=
  ⟨⟨by decide, claim_C3_advance_200.1 2 (by decide)⟩,
   ⟨by decide, claim_C3_advance_200.2.1 2 (by decide)⟩⟩

/-- C4: on a 2-player local test session, add_local_input before
start_session fails with SessionNotRunning; add_local_input with handle 3
fails with InvalidHandle; adding a third local player (handle 2, out of
the configured range) fails with InvalidHandle; adding a Remote player
fails with UnsupportedPlayerType.  In this embedding every operation
returns its successor session only on success, so a failing call leaves no
mutated session state by construction. -/
theorem claim_C4_invalid_operations :
    ((SyncTestSession.start_synctest_session (List Nat) 2 4 1).bind
        (fun s => s.add_local_input 0 zeroInput)) = .error GgrsError.SessionNotRunning ∧
    ((SyncTestSession.start_synctest_session (List Nat) 2 4 1).bind
        SyncTestSession.start_session |>.bind
        (fun s => s.add_local_input 3 zeroInput)) = .error GgrsError.InvalidHandle ∧
    ((SyncTestSession.start_synctest_session (List Nat) 2 4 1).bind
        (fun s => s.add_player PlayerType.Local 0) |>.bind
        (fun s => s.add_player PlayerType.Local 1) |>.bind
        (fun s => s.add_player PlayerType.Local 2)) = .error GgrsError.InvalidHandle ∧
    ((SyncTestSession.start_synctest_session (List Nat) 2 4 1).bind
        (fun s => s.add_player PlayerType.Local 0) |>.bind
        (fun s => s.add_player PlayerType.Local 1) |>.bind
        (fun s => s.add_player (PlayerType.Remote (SocketAddr.mk (127, 0, 0, 1) 8080)) 0))
      = .error GgrsError.UnsupportedPlayerType := by
  refine ⟨rfl, rfl, ?_, rfl⟩
  rfl

/-- C5: load() on a freshly constructed cell fails with LoadOnEmpty; after
one save(f, s, c), load() returns the stored pair (f, s).  The embedded
load is a pure observation returning no successor cell, so the read is
deterministic, repeatable and leaves the cell unchanged by construction. -/
theorem claim_C5_cell_load :
    (∀ (S : Type), (GameStateCell.new S).load = Except.error GgrsError.LoadOnEmpty) ∧
    (∀ (S : Type) (f : Int) (s : S) (c : Option Nat),
      ((GameStateCell.new S).save f s c).load = Except.ok (f, s)) :=
  ⟨fun _ => rfl, fun _ _ _ _ => rfl⟩

/-- C6: on a queue whose most recently confirmed input visible at frame
f+1 is I at frame f, with no confirmed entry at f+1 itself,
input_for_frame(f+1) predicts I with status Predicted
(repeat-last-confirmed); with no confirmed input at all the prediction is
the caller-supplied default, tagged Predicted. -/
theorem claim_C6_prediction :
    (∀ (q : InputQueue (List Nat)) (f : Int) (inp d : List Nat),
      q.findConfirmed (f + 1) = none →
      q.lastConfirmedBefore (f + 1) = some ⟨f, inp, InputStatus.Confirmed⟩ →
      q.input_for_frame (f + 1) d = (inp, InputStatus.Predicted)) ∧
    (∀ (q : InputQueue (List Nat)) (g : Int) (d : List Nat),
      q.confirmedEntries = [] →
      q.input_for_frame g d = (d, InputStatus.Predicted)) := by
  constructor
  · intro q f inp d h1 h2
    rw [InputQueue.input_for_frame, h1, h2]
  · intro q g d h
    rw [InputQueue.input_for_frame, InputQueue.findConfirmed, InputQueue.lastConfirmedBefore, h]
    simp

/-- C6 witness: a queue holding one confirmed input [1,0,0,0] at frame 0,
queried at frame 1; and the empty queue queried at frame 5. -/
theorem claim_C6_prediction_witness :
    ((InputQueue.mk [⟨0, [1, 0, 0, 0], InputStatus.Confirmed⟩] 0).findConfirmed (0 + 1) = none ∧
      (InputQueue.mk [⟨0, [1, 0, 0, 0], InputStatus.Confirmed⟩] 0).lastConfirmedBefore (0 + 1) =
        some ⟨0, [1, 0, 0, 0], InputStatus.Confirmed⟩ ∧
      (InputQueue.mk [⟨0, [1, 0, 0, 0], InputStatus.Confirmed⟩] 0).input_for_frame (0 + 1) zeroInput =
        ([1, 0, 0, 0], InputStatus.Predicted)) ∧
    ((InputQueue.new (List Nat)).confirmedEntries = [] ∧
      (InputQueue.new (List Nat)).input_for_frame 5 zeroInput = (zeroInput, InputStatus.Predicted)) :=
  ⟨⟨by decide, by decide,
    claim_C6_prediction.1 (InputQueue.mk [⟨0, [1, 0, 0, 0], InputStatus.Confirmed⟩] 0) 0
      [1, 0, 0, 0] zeroInput (by decide) (by decide)⟩,
   ⟨rfl, claim_C6_prediction.2 (InputQueue.new (List Nat)) 5 zeroInput rfl⟩⟩
